import Mathlib

/-!
Verification development for the openbb-widgets repository.

The repository exposes stock-data widgets over HTTP.  The parts embedded
here are the pure core the specification talks about:

* the JSON-like data records returned by the upstream client
  (src/vianexus/dataset.py models them as mappings from field name to
  scalar value; numbers are modelled as exact rationals),
* the metric-formatting pipeline of src/widgets/stock_stats.py
  (get_stock_stats),
* the chart-series extraction of src/widgets/stock_chart.py
  (get_stock_chart),
* the widget registry of src/registry.py (register_widget).

The upstream HTTP fetch is an external collaborator; its result (a list
of records, or a raised exception for the secondary quote fetch) is a
parameter of the embedded handlers.  The current instant and the local
timezone offset used by the freshness metric are likewise parameters.
Decimal formatting with a fixed number of places is modelled as exact
round-half-to-even on rationals; the schema in src/vianexus/dataset.py
declares the volume and shares fields as integers, so the group-separator
format is exercised on integers only.
-/

namespace OpenBBWidgets

/-- A scalar JSON value stored in a data record: a number (modelled as an
exact rational) or a string. -/
inductive JVal where
  | num (q : ℚ)
  | str (s : String)
  deriving DecidableEq

/-- A data record: a mapping from field name to scalar value, as produced
by the upstream client (src/vianexus/dataset.py). -/
abbrev Rec := List (String × JVal)

/-- Dictionary lookup on a record (the first binding for the key). -/
def Rec.find : Rec → String → Option JVal
  | [], _ => none
  | (k, v) :: rest, key => if k = key then some v else Rec.find rest key

/-- Python membership test: key in record. -/
def Rec.hasKey (r : Rec) (k : String) : Bool := (r.find k).isSome

/-- Numeric field access; fields read this way are numbers in the
validated schema, so a missing or non-numeric field defaults to 0. -/
def Rec.getNum (r : Rec) (k : String) : ℚ :=
  match r.find k with
  | some (.num q) => q
  | _ => 0

/-- String field access; fields read this way are strings in the
validated schema. -/
def Rec.getStr (r : Rec) (k : String) : String :=
  match r.find k with
  | some (.str s) => s
  | _ => ""

/-- Python dict.get with a string default, as in
data.get("52weekHighDate", "N/A"). -/
def Rec.getStrD (r : Rec) (k : String) (dflt : String) : String :=
  match r.find k with
  | some (.str s) => s
  | some (.num q) => toString q.num
  | none => dflt

/-! ## Numeric display formatting

Models the Python format specifications used in stock_stats.py:
fixed-point with 2 or 4 decimals, forced sign, and group separators. -/

/-- Floor of a rational, computed from its reduced fraction. -/
def qfloor (q : ℚ) : ℤ := q.num.fdiv q.den

/-- Python int(): truncation toward zero. -/
def pyTrunc (q : ℚ) : ℤ := if 0 ≤ q then ⌊q⌋ else ⌈q⌉

/-- Round the value a / b (b positive) to the nearest integer, ties to
even, computed on the integer numerator and denominator: with f the
floor of the quotient, the remainder a - f * b is compared against half
of b. -/
def intRoundHalfEven (a b : ℤ) : ℤ :=
  let f := a.fdiv b
  let r2 := 2 * (a - f * b)
  if r2 < b then f
  else if b < r2 then f + 1
  else if f % 2 = 0 then f else f + 1

/-- Round a rational to the nearest integer, ties to even, as fixed-point
formatting does. -/
def roundHalfEven (q : ℚ) : ℤ := intRoundHalfEven q.num q.den

/-- Digit string of a natural number split into groups of three from the
least significant end. -/
def group3 : List Char → List (List Char)
  | [] => []
  | [a] => [[a]]
  | [a, b] => [[a, b]]
  | a :: b :: c :: rest => [a, b, c] :: group3 rest

/-- Group separators: the digits of a natural number with a comma every
three digits, as Python's comma format specifier renders integers. -/
def commaDigits (m : ℕ) : String :=
  let grouped := (group3 (toString m).toList.reverse).map List.reverse
  String.intercalate "," (grouped.reverse.map (fun g => String.mk g))

/-- Fixed-point rendering of a rational with the given number of decimal
places (round half to even on the value scaled by a power of ten,
computed on the numerator to stay kernel-reducible), as a Python .2f or
.4f format. -/
def fmtFixed (prec : ℕ) (q : ℚ) : String :=
  let n := intRoundHalfEven (q.num * 10 ^ prec) q.den
  let sign := if n < 0 then "-" else ""
  let ds := (toString n.natAbs).toList
  let ds := if ds.length ≤ prec then List.replicate (prec + 1 - ds.length) '0' ++ ds else ds
  if prec = 0 then sign ++ String.mk ds
  else sign ++ String.mk (ds.take (ds.length - prec)) ++ "." ++ String.mk (ds.drop (ds.length - prec))

/-- Fixed-point with two decimals and a forced sign, as a Python +.2f
format. -/
def fmtSigned2 (q : ℚ) : String :=
  let n := intRoundHalfEven (q.num * 100) q.den
  if n < 0 then fmtFixed 2 q else "+" ++ fmtFixed 2 q

/-- Group separators applied to a rational: the integer case renders the
signed digits with commas (the schema declares the fields using this
format as integers); a fractional part, if ever present, is appended as
an exact decimal expansion truncated to 30 digits. -/
def fracDigits : ℕ → ℕ → ℕ → List Char
  | 0, _, _ => []
  | _ + 1, 0, _ => []
  | fuel + 1, rem, den =>
    let d := rem * 10 / den
    let rem2 := rem * 10 % den
    (Char.ofNat (48 + d)) :: fracDigits fuel rem2 den

/-- Python comma formatting of a rational field value. -/
def pyComma (q : ℚ) : String :=
  let sign := if q < 0 then "-" else ""
  let ip := q.num.natAbs / q.den
  let rem := q.num.natAbs % q.den
  if rem = 0 then sign ++ commaDigits ip
  else sign ++ commaDigits ip ++ "." ++ String.mk (fracDigits 30 rem q.den)

/-- Group separators with zero decimal places on a rational (round half
to even), as the Python comma .0f format used for small market caps. -/
def fmtCommaFixed0 (q : ℚ) : String :=
  let n := roundHalfEven q
  (if n < 0 then "-" else "") ++ commaDigits n.natAbs

/-! ## Field-specific scaling (stock_stats.py)

Three distinct tier ladders appear in get_stock_stats:

* volume values (today's volume, the 30-day average, and the
  average-only fallback use the identical ladder): at or above one
  million an M suffix, else at or above one thousand a K suffix, else
  the literal integer with group separators (lines 166-180, 196-203);
* shares outstanding: at or above one billion a B suffix, else at or
  above one million an M suffix, else the literal (lines 294-301);
* market cap: a currency prefix and T, B, M tiers, else the literal with
  group separators and no decimals (lines 133-141). -/

/-- Volume scaling as written in get_stock_stats (M, K, literal). -/
def fmtVolume (v : ℚ) : String :=
  if v ≥ 1000000 then fmtFixed 2 (v / 1000000) ++ "M"
  else if v ≥ 1000 then fmtFixed 2 (v / 1000) ++ "K"
  else pyComma v

/-- Shares-outstanding scaling as written in get_stock_stats
(B, M, literal). -/
def fmtShares (v : ℚ) : String :=
  if v ≥ 1000000000 then fmtFixed 2 (v / 1000000000) ++ "B"
  else if v ≥ 1000000 then fmtFixed 2 (v / 1000000) ++ "M"
  else pyComma v

/-- Market-cap scaling as written in get_stock_stats (currency prefix;
T, B, M tiers; literal below one million). -/
def fmtMarketCap (v : ℚ) : String :=
  if v ≥ 1000000000000 then "$" ++ fmtFixed 2 (v / 1000000000000) ++ "T"
  else if v ≥ 1000000000 then "$" ++ fmtFixed 2 (v / 1000000000) ++ "B"
  else if v ≥ 1000000 then "$" ++ fmtFixed 2 (v / 1000000) ++ "M"
  else "$" ++ fmtCommaFixed0 v

/-! ## Timestamps and the freshness bucket (stock_stats.py lines 309-337) -/

/-- Elapsed-time bucketing of the Last Updated metric, on elapsed seconds;
the quotient is truncated toward zero as Python int() does. -/
def timeAgo (elapsed : ℚ) : String :=
  if elapsed < 60 then "Just now"
  else if elapsed < 3600 then toString (pyTrunc (elapsed / 60)) ++ " min ago"
  else if elapsed < 86400 then
    let hours := pyTrunc (elapsed / 3600)
    if hours = 1 then toString hours ++ " hr ago" else toString hours ++ " hrs ago"
  else
    let days := pyTrunc (elapsed / 86400)
    if days = 1 then toString days ++ " day ago" else toString days ++ " days ago"

/-- Civil date from a count of days since the Unix epoch (proleptic
Gregorian calendar). -/
def civilFromDays (z0 : ℤ) : ℤ × ℕ × ℕ :=
  let z := z0 + 719468
  let era : ℤ := z.fdiv 146097
  let doe : ℕ := (z - era * 146097).toNat
  let yoe : ℕ := (doe - doe / 1460 + doe / 36524 - doe / 146096) / 365
  let doy : ℕ := doe - (365 * yoe + yoe / 4 - yoe / 100)
  let mp : ℕ := (5 * doy + 2) / 153
  let d : ℕ := doy - (153 * mp + 2) / 5 + 1
  let m : ℕ := if mp < 10 then mp + 3 else mp - 9
  (era * 400 + yoe + (if m ≤ 2 then 1 else 0), m, d)

/-- Two-digit zero padding. -/
def pad2 (n : ℕ) : String := if n < 10 then "0" ++ toString n else toString n

/-- Four-digit zero padding of a year. -/
def pad4 (y : ℤ) : String :=
  if y < 0 then "-" ++ toString y.natAbs
  else if y < 10 then "000" ++ toString y.toNat
  else if y < 100 then "00" ++ toString y.toNat
  else if y < 1000 then "0" ++ toString y.toNat
  else toString y.toNat

/-- The strftime rendering of a local timestamp, given epoch seconds
already shifted by the local timezone offset. -/
def fmtTimestamp (sec : ℤ) : String :=
  let days := sec.fdiv 86400
  let sod := (sec - days * 86400).toNat
  let ymd := civilFromDays days
  pad4 ymd.1 ++ "-" ++ pad2 ymd.2.1 ++ "-" ++ pad2 ymd.2.2 ++ " " ++
    pad2 (sod / 3600) ++ ":" ++ pad2 (sod % 3600 / 60) ++ ":" ++ pad2 (sod % 60)

/-! ## Metrics and the stock-statistics pipeline (stock_stats.py) -/

/-- One output metric: a label, a pre-formatted display value, and
optional description and delta fields. -/
structure Metric where
  label : String
  value : String
  description : Option String := none
  delta : Option String := none
  deriving DecidableEq

/-- A metric emitted under a condition, else nothing; the shape of every
per-field conditional in get_stock_stats. -/
def optMetric (c : Prop) [Decidable c] (m : Metric) : List Metric :=
  if c then [m] else []

/-- The MIC-to-exchange-name lookup of get_stock_stats (lines 109-117);
unknown codes pass through verbatim. -/
def micToExchange (mic : String) : String :=
  if mic = "XNYS" then "NYSE"
  else if mic = "XNAS" then "NASDAQ"
  else if mic = "XASE" then "NYSE American"
  else if mic = "ARCX" then "NYSE Arca"
  else if mic = "BATS" then "CBOE BZX"
  else if mic = "IEXG" then "IEX"
  else mic

/-- Company metric (lines 99-104). -/
def companySection (d : Rec) : List Metric :=
  optMetric (d.hasKey "issuerName" = true)
    ⟨"Company",
      (if d.hasKey "symbol" then
        d.getStr "issuerName" ++ " (" ++ d.getStr "symbol" ++ ")"
      else d.getStr "issuerName"), none, none⟩

/-- Exchange metric (lines 107-118). -/
def exchangeSection (d : Rec) : List Metric :=
  optMetric (d.hasKey "mic" = true)
    ⟨"Exchange", d.getStr "mic" ++ " • " ++ micToExchange (d.getStr "mic"), none, none⟩

/-- Current-price and market-cap metrics (lines 121-143): the market cap
is computed as live price times shares outstanding, inside the branch
that requires a live quote price. -/
def priceCapSection (q : Option Rec) (d : Rec) : List Metric :=
  match q with
  | some qr =>
    if qr.hasKey "vnxPrice" then
      ⟨"Current Price", "$" ++ fmtFixed 2 (qr.getNum "vnxPrice"),
        some "Real-time price", none⟩ ::
      optMetric (d.hasKey "sharesOutstanding" = true)
        ⟨"Market Cap", fmtMarketCap (qr.getNum "vnxPrice" * d.getNum "sharesOutstanding"),
          none, none⟩
    else []
  | none => []

/-- Day-range metric (lines 146-152): both bounds present and strictly
positive. -/
def rangeSection (q : Option Rec) : List Metric :=
  match q with
  | some qr =>
    if qr.hasKey "vnxLowPrice" ∧ qr.hasKey "vnxHighPrice" then
      optMetric (qr.getNum "vnxLowPrice" > 0 ∧ qr.getNum "vnxHighPrice" > 0)
        ⟨"Day's Range",
          "$" ++ fmtFixed 2 (qr.getNum "vnxLowPrice") ++ " - $" ++
            fmtFixed 2 (qr.getNum "vnxHighPrice"), none, none⟩
    else []
  | none => []

/-- Bid and ask metric (lines 155-159): both present and strictly
positive. -/
def bidAskSection (q : Option Rec) : List Metric :=
  match q with
  | some qr =>
    if qr.hasKey "vnxBidPrice" ∧ qr.hasKey "vnxAskPrice" then
      optMetric (qr.getNum "vnxBidPrice" > 0 ∧ qr.getNum "vnxAskPrice" > 0)
        ⟨"Bid / Ask",
          "$" ++ fmtFixed 2 (qr.getNum "vnxBidPrice") ++ " / $" ++
            fmtFixed 2 (qr.getNum "vnxAskPrice"), none, none⟩
    else []
  | none => []

/-- Python division: raises ZeroDivisionError on a zero divisor. -/
def pyDiv (a b : ℚ) : Except String ℚ :=
  if b = 0 then Except.error "ZeroDivisionError" else Except.ok (a / b)

/-- The average-only fallback metric (lines 195-204). -/
def avgVolFallback (d : Rec) : List Metric :=
  optMetric (d.hasKey "avg30DayVolume" = true)
    ⟨"Avg 30-Day Volume", fmtVolume (d.getNum "avg30DayVolume"), none, none⟩

/-- Volume metrics (lines 161-204): a today-versus-average comparison
when a live volume is present (the ratio only computed behind a strict
positivity guard on the average), a today-only metric when the average
is not positive, and an average-only fallback when no live volume is
available. -/
def volumeSection (q : Option Rec) (d : Rec) : Except String (List Metric) :=
  match q with
  | some qr =>
    if qr.hasKey "vnxVolume" ∧ d.hasKey "avg30DayVolume" then
      let today := qr.getNum "vnxVolume"
      let avg := d.getNum "avg30DayVolume"
      if avg > 0 then do
        let ratio ← pyDiv today avg
        Except.ok [⟨"Volume (Today vs Avg)", fmtVolume today ++ " / " ++ fmtVolume avg,
          some "Today / 30-day average", some (fmtFixed 4 (ratio - 1))⟩]
      else Except.ok [⟨"Volume (Today)", fmtVolume today, none, none⟩]
    else Except.ok (avgVolFallback d)
  | none => Except.ok (avgVolFallback d)

/-- Performance metrics (lines 210-251), shown for the all and
price_performance filters. -/
def perfSection (d : Rec) (filter : String) : List Metric :=
  if filter = "all" ∨ filter = "price_performance" then
    optMetric (d.hasKey "52weekHigh" = true)
      ⟨"52-Week High", "$" ++ fmtFixed 2 (d.getNum "52weekHigh"),
        some ("Date: " ++ d.getStrD "52weekHighDate" "N/A"), none⟩ ++
    optMetric (d.hasKey "52weekLow" = true)
      ⟨"52-Week Low", "$" ++ fmtFixed 2 (d.getNum "52weekLow"),
        some ("Date: " ++ d.getStrD "52weekLowDate" "N/A"), none⟩ ++
    optMetric (d.hasKey "52weekChange" = true)
      ⟨"52-Week Change", fmtSigned2 (d.getNum "52weekChange" * 100) ++ "%",
        none, some (fmtFixed 4 (d.getNum "52weekChange"))⟩ ++
    optMetric (d.hasKey "ytdChange" = true)
      ⟨"YTD Change", fmtSigned2 (d.getNum "ytdChange" * 100) ++ "%",
        none, some (fmtFixed 4 (d.getNum "ytdChange"))⟩
  else []

/-- Fundamental metrics (lines 257-274), shown for the all and
fundamentals filters. -/
def fundSection (d : Rec) (filter : String) : List Metric :=
  if filter = "all" ∨ filter = "fundamentals" then
    optMetric (d.hasKey "peRatioTtm" = true)
      ⟨"P/E Ratio (TTM)", fmtFixed 2 (d.getNum "peRatioTtm"), none, none⟩ ++
    optMetric (d.hasKey "epsTtm" = true)
      ⟨"EPS (TTM)", "$" ++ fmtFixed 2 (d.getNum "epsTtm"), none, none⟩ ++
    optMetric (d.hasKey "beta" = true)
      ⟨"Beta", fmtFixed 2 (d.getNum "beta"),
        some "Volatility measure vs. market", none⟩
  else []

/-- Technical metrics (lines 280-303), shown for the all and technical
filters; shares outstanding uses the B, M, literal ladder. -/
def techSection (d : Rec) (filter : String) : List Metric :=
  if filter = "all" ∨ filter = "technical" then
    optMetric (d.hasKey "day50MovingAverage" = true)
      ⟨"50-Day MA", "$" ++ fmtFixed 2 (d.getNum "day50MovingAverage"), none, none⟩ ++
    optMetric (d.hasKey "day200MovingAverage" = true)
      ⟨"200-Day MA", "$" ++ fmtFixed 2 (d.getNum "day200MovingAverage"), none, none⟩ ++
    optMetric (d.hasKey "sharesOutstanding" = true)
      ⟨"Shares Outstanding", fmtShares (d.getNum "sharesOutstanding"), none, none⟩
  else []

/-- Freshness metric (lines 310-337): buckets the elapsed time between
the current instant (epoch seconds) and the record's epoch-millisecond
updated field, and keeps the full local timestamp as the description. -/
def freshSection (d : Rec) (now : ℚ) (tz : ℤ) : List Metric :=
  optMetric (d.hasKey "updated" = true)
    ⟨"Last Updated", timeAgo (now - d.getNum "updated" / 1000),
      some (fmtTimestamp (qfloor (d.getNum "updated" / 1000) + tz)), none⟩

/-- The full metric list built by get_stock_stats from the primary record
and the optional quote record, in source order. -/
def buildMetrics (d : Rec) (q : Option Rec) (filter : String) (now : ℚ) (tz : ℤ) :
    Except String (List Metric) := do
  let vol ← volumeSection q d
  Except.ok (companySection d ++ exchangeSection d ++ priceCapSection q d ++
    rangeSection q ++ bidAskSection q ++ vol ++ perfSection d filter ++
    fundSection d filter ++ techSection d filter ++ freshSection d now tz)

/-- The volume metrics with the guarded division carried out; the lemma
volumeSection_eq_pure shows the guarded pipeline always produces this. -/
def volumePure (q : Option Rec) (d : Rec) : List Metric :=
  match q with
  | some qr =>
    if qr.hasKey "vnxVolume" ∧ d.hasKey "avg30DayVolume" then
      let today := qr.getNum "vnxVolume"
      let avg := d.getNum "avg30DayVolume"
      if avg > 0 then
        [⟨"Volume (Today vs Avg)", fmtVolume today ++ " / " ++ fmtVolume avg,
          some "Today / 30-day average", some (fmtFixed 4 (today / avg - 1))⟩]
      else [⟨"Volume (Today)", fmtVolume today, none, none⟩]
    else avgVolFallback d
  | none => avgVolFallback d

/-- The metric list of a successful get_stock_stats run. -/
def metricsOut (d : Rec) (q : Option Rec) (filter : String) (now : ℚ) (tz : ℤ) :
    List Metric :=
  companySection d ++ exchangeSection d ++ priceCapSection q d ++
    rangeSection q ++ bidAskSection q ++ volumePure q d ++ perfSection d filter ++
    fundSection d filter ++ techSection d filter ++ freshSection d now tz

/-- An HTTP error response: status code and detail message. -/
structure HErr where
  status : ℕ
  detail : String
  deriving DecidableEq

/-- The get_stock_stats handler (stock_stats.py lines 51-350), with the
upstream results as parameters: the primary fetch result is a record
list, the secondary quote fetch either a record list or a raised
exception.  An empty primary response raises HTTP 404 naming the symbol;
a quote failure is absorbed and the quote treated as absent; any internal
exception would surface as HTTP 500. -/
def getStockStats (symbol : String) (fetchRes : List Rec)
    (quoteFetch : Except String (List Rec)) (filter : String) (now : ℚ) (tz : ℤ) :
    Except HErr (List Metric) :=
  match fetchRes with
  | [] => Except.error ⟨404, "No data found for symbol: " ++ symbol⟩
  | d :: _ =>
    let q : Option Rec :=
      match quoteFetch with
      | Except.ok qs => qs.head?
      | Except.error _ => none
    match buildMetrics d q filter now tz with
    | Except.ok ms => Except.ok ms
    | Except.error e =>
      Except.error ⟨500, "Error fetching data for symbol " ++ symbol ++ ": " ++ e⟩

/-! ## Chart builder (stock_chart.py) -/

/-- The chart payload: the shared date axis and the two moving-average
series (a missing field contributes none at its position). -/
structure Chart where
  dates : List JVal
  ma50 : List (Option JVal)
  ma200 : List (Option JVal)
  deriving DecidableEq

/-- The extraction loop of get_stock_chart (lines 62-72): per record in
input order, a record with a date appends the date and both
moving-average lookups; a record without a date contributes nothing. -/
def chartSeries : List Rec → Chart
  | [] => ⟨[], [], []⟩
  | r :: rs =>
    let rest := chartSeries rs
    match r.find "date" with
    | some dv =>
      ⟨dv :: rest.dates, r.find "day50MovingAverage" :: rest.ma50,
        r.find "day200MovingAverage" :: rest.ma200⟩
    | none => rest

/-- The get_stock_chart handler (stock_chart.py lines 39-129) over the
fetched historical records: an empty response raises HTTP 404 naming the
symbol, a response with no dated record raises HTTP 404, and otherwise
the chart payload is returned. -/
def getStockChart (symbol : String) (fetchRes : List Rec) : Except HErr Chart :=
  match fetchRes with
  | [] => Except.error ⟨404, "No historical data found for symbol: " ++ symbol⟩
  | _ =>
    let c := chartSeries fetchRes
    if c.dates = [] then
      Except.error ⟨404, "Insufficient historical data for symbol: " ++ symbol⟩
    else Except.ok c

/-! ## Widget registry (registry.py) -/

/-- Python truthiness of an optional scalar, as the if endpoint test. -/
def jvalTruthy : Option JVal → Bool
  | none => false
  | some (.str s) => s ≠ ""
  | some (.num q) => q ≠ 0

/-- Dictionary insertion: an existing key is overwritten in place, a new
key is appended. -/
def dictInsert {K V : Type} [DecidableEq K] (r : List (K × V)) (k : K) (v : V) :
    List (K × V) :=
  if k ∈ r.map Prod.fst then
    r.map (fun p => if p.1 = k then (k, v) else p)
  else r ++ [(k, v)]

/-- Dictionary lookup for registry keys. -/
def dictFind {K V : Type} [DecidableEq K] : List (K × V) → K → Option V
  | [], _ => none
  | (k, v) :: rest, key => if k = key then some v else dictFind rest key

/-- The widget registry: a dictionary from widget identifier to
descriptor; identifiers may be arbitrary scalar values. -/
abbrev Registry := List (JVal × Rec)

/-- The descriptor actually stored by register_widget: when the endpoint
is truthy and no widgetId is present, the widgetId field is added to the
configuration (registry.py lines 66-67). -/
def augmentConfig (cfg : Rec) : Rec :=
  if cfg.hasKey "widgetId" then cfg
  else
    match cfg.find "endpoint" with
    | some ep => cfg ++ [("widgetId", ep)]
    | none => cfg

/-- The identifier a configuration registers under: the widgetId field
when present, else the endpoint name; none when the endpoint is absent
or falsy (in which case nothing is registered). -/
def resolveId (cfg : Rec) : Option JVal :=
  if jvalTruthy (cfg.find "endpoint") then ((augmentConfig cfg).find "widgetId")
  else none

/-- One registration step of register_widget (registry.py lines 62-71):
with a truthy endpoint, derive the widgetId if absent and store the
descriptor under it; otherwise leave the registry untouched. -/
def registerStep (reg : Registry) (cfg : Rec) : Registry :=
  if jvalTruthy (cfg.find "endpoint") then
    match (augmentConfig cfg).find "widgetId" with
    | some wid => dictInsert reg wid (augmentConfig cfg)
    | none => reg
  else reg

/-- A whole startup sequence of registrations applied to a registry. -/
def applyRegistrations (reg : Registry) : List Rec → Registry
  | [] => reg
  | cfg :: rest => applyRegistrations (registerStep reg cfg) rest

/-- The wrapper returned by the register_widget decorator: it forwards
every call to the original function (registry.py lines 57-60). -/
def wrapHandler {α β : Type} (f : α → β) : α → β := fun a => f a

/-! ## Helper lemmas -/

/-- The label strings of a metric list. -/
def labelList (ms : List Metric) : List String := ms.map Metric.label

theorem labelList_append (a b : List Metric) :
    labelList (a ++ b) = labelList a ++ labelList b :=
  List.map_append _ a b

theorem mem_labelList_optMetric {c : Prop} [Decidable c] {m : Metric} {s : String} :
    s ∈ labelList (optMetric c m) ↔ c ∧ s = m.label := by
  unfold optMetric labelList
  split <;> simp_all

theorem mem_labelList_company {d : Rec} {s : String} :
    s ∈ labelList (companySection d) ↔ d.hasKey "issuerName" = true ∧ s = "Company" := by
  simp [companySection, mem_labelList_optMetric]

theorem mem_labelList_exchange {d : Rec} {s : String} :
    s ∈ labelList (exchangeSection d) ↔ d.hasKey "mic" = true ∧ s = "Exchange" := by
  simp [exchangeSection, mem_labelList_optMetric]

theorem mem_labelList_priceCap {q : Option Rec} {d : Rec} {s : String} :
    s ∈ labelList (priceCapSection q d) ↔
      (∃ qr, q = some qr ∧ qr.hasKey "vnxPrice" = true) ∧
        (s = "Current Price" ∨ (d.hasKey "sharesOutstanding" = true ∧ s = "Market Cap")) := by
  cases q with
  | none => simp [priceCapSection, labelList]
  | some qr =>
    by_cases h : qr.hasKey "vnxPrice" = true
    · simp only [priceCapSection, if_pos h, labelList, List.map_cons, List.mem_cons]
      constructor
      · rintro (h1 | h1)
        · exact ⟨⟨qr, rfl, h⟩, Or.inl h1⟩
        · rcases mem_labelList_optMetric.mp h1 with ⟨hs, h2⟩
          exact ⟨⟨qr, rfl, h⟩, Or.inr ⟨hs, h2⟩⟩
      · rintro ⟨-, (h1 | h1)⟩
        · exact Or.inl h1
        · exact Or.inr (mem_labelList_optMetric.mpr ⟨h1.1, h1.2⟩)
    · simp [priceCapSection, h, labelList]

theorem mem_labelList_range {q : Option Rec} {s : String} :
    s ∈ labelList (rangeSection q) ↔
      ∃ qr, q = some qr ∧ qr.hasKey "vnxLowPrice" = true ∧ qr.hasKey "vnxHighPrice" = true ∧
        0 < qr.getNum "vnxLowPrice" ∧ 0 < qr.getNum "vnxHighPrice" ∧ s = "Day's Range" := by
  cases q with
  | none => simp [rangeSection, labelList]
  | some qr =>
    by_cases h : qr.hasKey "vnxLowPrice" = true ∧ qr.hasKey "vnxHighPrice" = true
    · simp only [rangeSection, if_pos h, mem_labelList_optMetric]
      constructor
      · rintro ⟨⟨h1, h2⟩, h3⟩
        exact ⟨qr, rfl, h.1, h.2, h1, h2, h3⟩
      · rintro ⟨qr2, heq, _, _, h1, h2, h3⟩
        cases Option.some.inj heq
        exact ⟨⟨h1, h2⟩, h3⟩
    · simp only [rangeSection, if_neg h, labelList]
      simp only [List.map_nil, List.not_mem_nil, false_iff]
      rintro ⟨qr2, heq, h1, h2, -⟩
      cases Option.some.inj heq
      exact h ⟨h1, h2⟩

theorem mem_labelList_bidAsk {q : Option Rec} {s : String} :
    s ∈ labelList (bidAskSection q) ↔
      ∃ qr, q = some qr ∧ qr.hasKey "vnxBidPrice" = true ∧ qr.hasKey "vnxAskPrice" = true ∧
        0 < qr.getNum "vnxBidPrice" ∧ 0 < qr.getNum "vnxAskPrice" ∧ s = "Bid / Ask" := by
  cases q with
  | none => simp [bidAskSection, labelList]
  | some qr =>
    by_cases h : qr.hasKey "vnxBidPrice" = true ∧ qr.hasKey "vnxAskPrice" = true
    · simp only [bidAskSection, if_pos h, mem_labelList_optMetric]
      constructor
      · rintro ⟨⟨h1, h2⟩, h3⟩
        exact ⟨qr, rfl, h.1, h.2, h1, h2, h3⟩
      · rintro ⟨qr2, heq, _, _, h1, h2, h3⟩
        cases Option.some.inj heq
        exact ⟨⟨h1, h2⟩, h3⟩
    · simp only [bidAskSection, if_neg h, labelList]
      simp only [List.map_nil, List.not_mem_nil, false_iff]
      rintro ⟨qr2, heq, h1, h2, -⟩
      cases Option.some.inj heq
      exact h ⟨h1, h2⟩

theorem mem_labelList_avgVolFallback {d : Rec} {s : String} :
    s ∈ labelList (avgVolFallback d) →
      s = "Avg 30-Day Volume" := by
  intro h
  exact (mem_labelList_optMetric.mp h).2

theorem mem_labelList_volumePure {q : Option Rec} {d : Rec} {s : String} :
    s ∈ labelList (volumePure q d) →
      s = "Volume (Today vs Avg)" ∨ s = "Volume (Today)" ∨ s = "Avg 30-Day Volume" := by
  cases q with
  | none =>
    intro h
    exact Or.inr (Or.inr (mem_labelList_avgVolFallback h))
  | some qr =>
    simp only [volumePure]
    by_cases hc : qr.hasKey "vnxVolume" = true ∧ d.hasKey "avg30DayVolume" = true
    · rw [if_pos hc]
      by_cases havg : d.getNum "avg30DayVolume" > 0
      · rw [if_pos havg]
        intro h
        simp [labelList] at h
        simp [h]
      · rw [if_neg havg]
        intro h
        simp [labelList] at h
        simp [h]
    · rw [if_neg hc]
      intro h
      exact Or.inr (Or.inr (mem_labelList_avgVolFallback h))

theorem mem_labelList_perf {d : Rec} {f : String} {s : String} :
    s ∈ labelList (perfSection d f) →
      s = "52-Week High" ∨ s = "52-Week Low" ∨ s = "52-Week Change" ∨ s = "YTD Change" := by
  unfold perfSection
  split
  · simp only [labelList_append, List.mem_append, mem_labelList_optMetric]
    rintro (((⟨-, h⟩ | ⟨-, h⟩) | ⟨-, h⟩) | ⟨-, h⟩) <;> simp [h]
  · simp [labelList]

theorem mem_labelList_fund {d : Rec} {f : String} {s : String} :
    s ∈ labelList (fundSection d f) →
      s = "P/E Ratio (TTM)" ∨ s = "EPS (TTM)" ∨ s = "Beta" := by
  unfold fundSection
  split
  · simp only [labelList_append, List.mem_append, mem_labelList_optMetric]
    rintro ((⟨-, h⟩ | ⟨-, h⟩) | ⟨-, h⟩) <;> simp [h]
  · simp [labelList]

theorem mem_labelList_tech {d : Rec} {f : String} {s : String} :
    s ∈ labelList (techSection d f) →
      s = "50-Day MA" ∨ s = "200-Day MA" ∨ s = "Shares Outstanding" := by
  unfold techSection
  split
  · simp only [labelList_append, List.mem_append, mem_labelList_optMetric]
    rintro ((⟨-, h⟩ | ⟨-, h⟩) | ⟨-, h⟩) <;> simp [h]
  · simp [labelList]

theorem mem_labelList_fresh {d : Rec} {now : ℚ} {tz : ℤ} {s : String} :
    s ∈ labelList (freshSection d now tz) → s = "Last Updated" := by
  intro h
  exact (mem_labelList_optMetric.mp h).2

theorem mem_metricsOut {d : Rec} {q : Option Rec} {filter : String} {now : ℚ}
    {tz : ℤ} {m : Metric} :
    m ∈ metricsOut d q filter now tz ↔
      m ∈ companySection d ∨ m ∈ exchangeSection d ∨ m ∈ priceCapSection q d ∨
        m ∈ rangeSection q ∨ m ∈ bidAskSection q ∨ m ∈ volumePure q d ∨
        m ∈ perfSection d filter ∨ m ∈ fundSection d filter ∨
        m ∈ techSection d filter ∨ m ∈ freshSection d now tz := by
  rw [metricsOut]
  simp only [List.mem_append, or_assoc]

theorem mem_labelList_metricsOut {d : Rec} {q : Option Rec} {filter : String}
    {now : ℚ} {tz : ℤ} {s : String} :
    s ∈ labelList (metricsOut d q filter now tz) ↔
      s ∈ labelList (companySection d) ∨ s ∈ labelList (exchangeSection d) ∨
        s ∈ labelList (priceCapSection q d) ∨ s ∈ labelList (rangeSection q) ∨
        s ∈ labelList (bidAskSection q) ∨ s ∈ labelList (volumePure q d) ∨
        s ∈ labelList (perfSection d filter) ∨ s ∈ labelList (fundSection d filter) ∨
        s ∈ labelList (techSection d filter) ∨ s ∈ labelList (freshSection d now tz) := by
  rw [metricsOut]
  simp only [labelList_append, List.mem_append, or_assoc]

theorem volumeSection_eq_pure (q : Option Rec) (d : Rec) :
    volumeSection q d = Except.ok (volumePure q d) := by
  cases q with
  | none => rfl
  | some qr =>
    simp only [volumeSection, volumePure]
    by_cases hc : qr.hasKey "vnxVolume" = true ∧ d.hasKey "avg30DayVolume" = true
    · rw [if_pos hc, if_pos hc]
      by_cases havg : d.getNum "avg30DayVolume" > 0
      · rw [if_pos havg, if_pos havg]
        have hne : d.getNum "avg30DayVolume" ≠ 0 := ne_of_gt havg
        simp only [pyDiv, if_neg hne]
        rfl
      · rw [if_neg havg, if_neg havg]
    · rw [if_neg hc, if_neg hc]

theorem buildMetrics_eq_ok (d : Rec) (q : Option Rec) (filter : String) (now : ℚ)
    (tz : ℤ) :
    buildMetrics d q filter now tz = Except.ok (metricsOut d q filter now tz) := by
  simp only [buildMetrics, volumeSection_eq_pure, metricsOut]
  rfl

/-- Keys of a registry. -/
def regKeys (reg : Registry) : List JVal := reg.map Prod.fst

theorem regKeys_dictInsert (reg : Registry) (k : JVal) (v : Rec) :
    regKeys (dictInsert reg k v) =
      if k ∈ reg.map Prod.fst then regKeys reg else regKeys reg ++ [k] := by
  unfold dictInsert regKeys
  split
  · simp only [if_pos ‹_›, List.map_map]
    congr 1
    funext p
    by_cases h : p.1 = k <;> simp [h]
  · simp [if_neg ‹_›]

theorem nodup_regKeys_dictInsert {reg : Registry} (k : JVal) (v : Rec)
    (h : (regKeys reg).Nodup) : (regKeys (dictInsert reg k v)).Nodup := by
  rw [regKeys_dictInsert]
  split
  · exact h
  · next hc =>
    have hk : k ∉ regKeys reg := hc
    simpa [List.nodup_append] using ⟨h, hk⟩

theorem nodup_regKeys_registerStep {reg : Registry} (cfg : Rec)
    (h : (regKeys reg).Nodup) : (regKeys (registerStep reg cfg)).Nodup := by
  unfold registerStep
  split
  · split
    · exact nodup_regKeys_dictInsert _ _ h
    · exact h
  · exact h

theorem nodup_regKeys_applyRegistrations (cfgs : List Rec) :
    ∀ reg : Registry, (regKeys reg).Nodup →
      (regKeys (applyRegistrations reg cfgs)).Nodup := by
  induction cfgs with
  | nil => intro reg h; exact h
  | cons cfg rest ih =>
    intro reg h
    exact ih _ (nodup_regKeys_registerStep cfg h)

theorem dictFind_append_single (reg : Registry) (k : JVal) (v : Rec)
    (h : k ∉ regKeys reg) : dictFind (reg ++ [(k, v)]) k = some v := by
  induction reg with
  | nil => simp [dictFind]
  | cons p rest ih =>
    obtain ⟨a, b⟩ := p
    have hne : ¬(a = k) := by
      intro he
      exact h (by simp [regKeys, he])
    simp only [List.cons_append, dictFind, if_neg hne]
    exact ih (fun hm => h (by simp [regKeys] at hm ⊢; exact Or.inr hm))

theorem dictFind_replace (reg : Registry) (k : JVal) (v : Rec)
    (h : k ∈ regKeys reg) :
    dictFind (reg.map (fun p => if p.1 = k then (k, v) else p)) k = some v := by
  induction reg with
  | nil => simp [regKeys] at h
  | cons p rest ih =>
    obtain ⟨a, b⟩ := p
    rw [List.map_cons]
    by_cases hp : a = k
    · rw [show (if (a, b).1 = k then (k, v) else (a, b)) = (k, v) from if_pos hp]
      simp [dictFind]
    · rw [show (if (a, b).1 = k then (k, v) else (a, b)) = (a, b) from if_neg hp]
      have hmem : k ∈ regKeys rest := by
        rcases (by simpa [regKeys] using h : k = a ∨ k ∈ regKeys rest) with h1 | h1
        · exact absurd h1.symm hp
        · exact h1
      simp only [dictFind, if_neg hp]
      exact ih hmem

theorem dictFind_dictInsert_self (reg : Registry) (k : JVal) (v : Rec) :
    dictFind (dictInsert reg k v) k = some v := by
  unfold dictInsert
  split
  · next hc => exact dictFind_replace reg k v hc
  · next hc => exact dictFind_append_single reg k v hc

/-! ## Claims -/

theorem pyComma_natCast (v : ℕ) : pyComma ((v : ℚ)) = commaDigits v := by
  have hnn : ¬((v : ℚ) < 0) := not_lt.mpr (by positivity)
  unfold pyComma
  rw [Rat.num_natCast, Rat.den_natCast]
  simp [hnn, Nat.mod_one]

/-- The volume tiers stated in the spec wording, low to high, with the B
tier removed as the amended claim requires. -/
def volumeScaleSpec (v : ℕ) : String :=
  if v < 1000 then commaDigits v
  else if v < 1000000 then fmtFixed 2 ((v : ℚ) / 1000) ++ "K"
  else fmtFixed 2 ((v : ℚ) / 1000000) ++ "M"

/-- The shares-outstanding tiers stated in the spec wording, low to
high, with the K tier removed as the amended claim requires. -/
def sharesScaleSpec (v : ℕ) : String :=
  if v < 1000000 then commaDigits v
  else if v < 1000000000 then fmtFixed 2 ((v : ℚ) / 1000000) ++ "M"
  else fmtFixed 2 ((v : ℚ) / 1000000000) ++ "B"

/-- C1 counterexample: the scaling rule is not applied identically to
the two fields; the volume formatter has no B tier (one billion renders
with an M suffix) and the shares formatter has no K tier (one thousand
renders as the literal with group separators). -/
theorem C1_counterexample_mixed_tiers :
    fmtVolume 1000000000 = "1000.00M" ∧ fmtShares 1000 = "1,000" ∧
    fmtVolume 1000000000 ≠ "1.00B" ∧ fmtShares 1000 ≠ "1.00K" := by
  have hv : fmtVolume 1000000000 = "1000.00M" := by
    unfold fmtVolume
    rw [if_pos (by norm_num : (1000000000 : ℚ) ≥ 1000000),
      show (1000000000 : ℚ) / 1000000 = 1000 by norm_num]
    decide
  have hs : fmtShares 1000 = "1,000" := by
    unfold fmtShares
    rw [if_neg (by norm_num : ¬(1000 : ℚ) ≥ 1000000000),
      if_neg (by norm_num : ¬(1000 : ℚ) ≥ 1000000)]
    decide
  exact ⟨hv, hs, by rw [hv]; decide, by rw [hs]; decide⟩

/-- C1 amended: for every non-negative integer value, the average-volume
field (formatted by the one ladder shared by the today, average and
fallback branches) uses tiers literal below one thousand, K up to one
million, and M from one million upward with no B tier, while the
shares-outstanding field uses tiers literal below one million, M up to
one billion, and B from one billion upward with no K tier; the volume
boundary behavior is 999 to the literal and 1000 to 1.00K. -/
theorem C1_amended_tiers :
    (∀ v : ℕ,
      fmtVolume ((v : ℚ)) = volumeScaleSpec v ∧
        fmtShares ((v : ℚ)) = sharesScaleSpec v) ∧
    fmtVolume 999 = "999" ∧ fmtVolume 1000 = "1.00K" := by
  refine ⟨fun v => ⟨?_, ?_⟩, ?_, ?_⟩
  case refine_3 =>
    unfold fmtVolume
    rw [if_neg (by norm_num : ¬(999 : ℚ) ≥ 1000000),
      if_neg (by norm_num : ¬(999 : ℚ) ≥ 1000)]
    decide
  case refine_4 =>
    unfold fmtVolume
    rw [if_neg (by norm_num : ¬(1000 : ℚ) ≥ 1000000),
      if_pos (by norm_num : (1000 : ℚ) ≥ 1000),
      show (1000 : ℚ) / 1000 = 1 by norm_num]
    decide
  · unfold fmtVolume volumeScaleSpec
    by_cases h1 : v < 1000
    · have hc : (v : ℚ) < 1000 := by exact_mod_cast h1
      rw [if_neg (by linarith), if_neg (by linarith),
        if_pos h1, pyComma_natCast]
    · by_cases h2 : v < 1000000
      · have hc2 : (v : ℚ) < 1000000 := by exact_mod_cast h2
        have hc1 : (1000 : ℚ) ≤ (v : ℚ) := by exact_mod_cast not_lt.mp h1
        rw [if_neg (by linarith), if_pos (by linarith),
          if_neg h1, if_pos h2]
      · have hc2 : (1000000 : ℚ) ≤ (v : ℚ) := by exact_mod_cast not_lt.mp h2
        rw [if_pos (by linarith), if_neg h1, if_neg h2]
  · unfold fmtShares sharesScaleSpec
    by_cases h1 : v < 1000000
    · have hc : (v : ℚ) < 1000000 := by exact_mod_cast h1
      rw [if_neg (by linarith), if_neg (by linarith),
        if_pos h1, pyComma_natCast]
    · by_cases h2 : v < 1000000000
      · have hc2 : (v : ℚ) < 1000000000 := by exact_mod_cast h2
        have hc1 : (1000000 : ℚ) ≤ (v : ℚ) := by exact_mod_cast not_lt.mp h1
        rw [if_neg (by linarith), if_pos (by linarith),
          if_neg h1, if_pos h2]
      · have hc2 : (1000000000 : ℚ) ≤ (v : ℚ) := by exact_mod_cast not_lt.mp h2
        rw [if_pos (by linarith), if_neg h1, if_neg h2]

/-- C7: the Last Updated metric buckets elapsed seconds as Just now
below one minute, N min ago below one hour, N hr or hrs ago below one
day (singular exactly at one), and N day or days ago from one day on,
with N truncated toward zero, the full formatted timestamp kept in the
description; in particular 30s, 90s, 3700s and 90000s map to Just now,
1 min ago, 1 hr ago and 1 day ago. -/
theorem C7_freshness_buckets (d : Rec) (now : ℚ) (tz : ℤ)
    (h : d.hasKey "updated" = true) :
    freshSection d now tz =
      [⟨"Last Updated", timeAgo (now - d.getNum "updated" / 1000),
        some (fmtTimestamp (qfloor (d.getNum "updated" / 1000) + tz)), none⟩] ∧
    (∀ e : ℚ, e < 60 → timeAgo e = "Just now") ∧
    (∀ e : ℚ, 60 ≤ e → e < 3600 →
      timeAgo e = toString (pyTrunc (e / 60)) ++ " min ago") ∧
    (∀ e : ℚ, 3600 ≤ e → e < 86400 → pyTrunc (e / 3600) = 1 →
      timeAgo e = "1 hr ago") ∧
    (∀ e : ℚ, 3600 ≤ e → e < 86400 → pyTrunc (e / 3600) ≠ 1 →
      timeAgo e = toString (pyTrunc (e / 3600)) ++ " hrs ago") ∧
    (∀ e : ℚ, 86400 ≤ e → pyTrunc (e / 86400) = 1 → timeAgo e = "1 day ago") ∧
    (∀ e : ℚ, 86400 ≤ e → pyTrunc (e / 86400) ≠ 1 →
      timeAgo e = toString (pyTrunc (e / 86400)) ++ " days ago") ∧
    timeAgo 30 = "Just now" ∧ timeAgo 90 = "1 min ago" ∧
    timeAgo 3700 = "1 hr ago" ∧ timeAgo 90000 = "1 day ago" := by
  refine ⟨by simp [freshSection, optMetric, h], ?_, ?_, ?_, ?_, ?_, ?_, ?_, ?_, ?_, ?_⟩
  · intro e h1
    unfold timeAgo
    rw [if_pos h1]
  · intro e h1 h2
    unfold timeAgo
    rw [if_neg (by linarith), if_pos h2]
  · intro e h1 h2 h3
    unfold timeAgo
    rw [if_neg (by linarith), if_neg (by linarith), if_pos h2]
    simp only [h3, if_pos rfl]
    decide
  · intro e h1 h2 h3
    unfold timeAgo
    rw [if_neg (by linarith), if_neg (by linarith), if_pos h2, if_neg h3]
  · intro e h1 h2
    unfold timeAgo
    rw [if_neg (by linarith), if_neg (by linarith), if_neg (by linarith)]
    simp only [h2, if_pos rfl]
    decide
  · intro e h1 h2
    unfold timeAgo
    rw [if_neg (by linarith), if_neg (by linarith), if_neg (by linarith), if_neg h2]
  · unfold timeAgo
    rw [if_pos (by norm_num)]
  · have hp : pyTrunc ((90 : ℚ) / 60) = 1 := by
      unfold pyTrunc
      rw [if_pos (by norm_num)]
      norm_num
    unfold timeAgo
    rw [if_neg (by norm_num), if_pos (by norm_num), hp]
    decide
  · have hp : pyTrunc ((3700 : ℚ) / 3600) = 1 := by
      unfold pyTrunc
      rw [if_pos (by norm_num)]
      norm_num
    unfold timeAgo
    rw [if_neg (by norm_num), if_neg (by norm_num), if_pos (by norm_num)]
    simp only [hp, if_pos rfl]
    decide
  · have hp : pyTrunc ((90000 : ℚ) / 86400) = 1 := by
      unfold pyTrunc
      rw [if_pos (by norm_num)]
      norm_num
    unfold timeAgo
    rw [if_neg (by norm_num), if_neg (by norm_num), if_neg (by norm_num)]
    simp only [hp, if_pos rfl]
    decide

/-- Witness for C7 at a record updated 90 seconds before the current
instant. -/
theorem C7_freshness_buckets_witness :
    freshSection [("updated", JVal.num 1700000000000)] 1700000090 0 =
      [⟨"Last Updated",
        timeAgo (1700000090 - Rec.getNum [("updated", JVal.num 1700000000000)] "updated" / 1000),
        some (fmtTimestamp
          (qfloor (Rec.getNum [("updated", JVal.num 1700000000000)] "updated" / 1000) + 0)),
        none⟩] ∧
    timeAgo 90 = "1 min ago" := by
  have h := C7_freshness_buckets [("updated", JVal.num 1700000000000)] 1700000090 0 (by decide)
  exact ⟨h.1, h.2.2.2.2.2.2.2.2.1⟩

/-- C2: for every symbol, when the upstream client returns zero records
for the primary fetch, the stock-statistics handler and the stock-chart
handler both fail with HTTP 404, the detail message names the requested
symbol, and no metric list or chart payload is produced. -/
theorem C2_empty_fetch_404 (symbol : String) (quoteFetch : Except String (List Rec))
    (filter : String) (now : ℚ) (tz : ℤ) :
    getStockStats symbol [] quoteFetch filter now tz =
      Except.error ⟨404, "No data found for symbol: " ++ symbol⟩ ∧
    getStockChart symbol [] =
      Except.error ⟨404, "No historical data found for symbol: " ++ symbol⟩ ∧
    (∃ p, "No data found for symbol: " ++ symbol = p ++ symbol) ∧
    (∃ p, "No historical data found for symbol: " ++ symbol = p ++ symbol) :=
  ⟨rfl, rfl, ⟨_, rfl⟩, ⟨_, rfl⟩⟩

/-- C9: a configuration whose endpoint key is absent or falsy leaves the
registry exactly unchanged and raises no error, while the decorator
wrapper still forwards every call to the original function. -/
theorem C9_falsy_endpoint_noop (reg : Registry) (cfg : Rec)
    (h : jvalTruthy (cfg.find "endpoint") = false) :
    registerStep reg cfg = reg ∧
    ∀ (α β : Type) (f : α → β) (a : α), wrapHandler f a = f a := by
  constructor
  · unfold registerStep
    rw [if_neg (by simp [h])]
  · intro α β f a
    rfl

/-- Witness for C9 at a configuration with no endpoint key. -/
theorem C9_falsy_endpoint_noop_witness :
    registerStep [] [("name", JVal.str "Hello")] = [] ∧
    wrapHandler (fun n : ℕ => n + 1) 3 = 4 := by
  have h := C9_falsy_endpoint_noop [] [("name", JVal.str "Hello")] (by rfl)
  exact ⟨h.1, h.2 ℕ ℕ (fun n => n + 1) 3⟩

/-- C4: identifiers are unique keys in the registry for every sequence
of registrations, and two registrations resolving to the same identifier
leave exactly the second descriptor stored under it, never an error. -/
theorem C4_registry_last_write_wins :
    (∀ cfgs : List Rec, (regKeys (applyRegistrations [] cfgs)).Nodup) ∧
    (∀ (reg : Registry) (c1 c2 : Rec) (id : JVal),
      resolveId c1 = some id → resolveId c2 = some id →
      dictFind (registerStep (registerStep reg c1) c2) id = some (augmentConfig c2)) := by
  constructor
  · intro cfgs
    exact nodup_regKeys_applyRegistrations cfgs [] (by simp [regKeys])
  · intro reg c1 c2 id h1 h2
    have ht : jvalTruthy (c2.find "endpoint") = true := by
      rcases Bool.eq_false_or_eq_true (jvalTruthy (c2.find "endpoint")) with ht | hf
      · exact ht
      · unfold resolveId at h2
        rw [if_neg (by simp [hf])] at h2
        cases h2
    have hw : (augmentConfig c2).find "widgetId" = some id := by
      unfold resolveId at h2
      rwa [if_pos ht] at h2
    unfold registerStep
    rw [if_pos ht, hw]
    exact dictFind_dictInsert_self _ id _

/-- Witness for C4: two configurations sharing the endpoint name
stock_stats resolve to the same identifier and the second wins. -/
theorem C4_registry_last_write_wins_witness :
    dictFind
      (registerStep
        (registerStep [] [("endpoint", JVal.str "stock_stats"), ("name", JVal.str "A")])
        [("endpoint", JVal.str "stock_stats"), ("name", JVal.str "B")])
      (JVal.str "stock_stats") =
      some (augmentConfig [("endpoint", JVal.str "stock_stats"), ("name", JVal.str "B")]) :=
  C4_registry_last_write_wins.2 [] _ _ (JVal.str "stock_stats") (by decide) (by decide)

/-- C8: the chart builder visits records in input order; each dated
record contributes its date to the shared axis and its two
moving-average lookups (none when absent) to the series, so both series
have the length of the dated-record count and align positionally; a
3-record history with one record missing the 50-day average yields a
50-day series of length 3 with a hole at that position and an unaffected
date axis. -/
theorem C8_chart_alignment :
    (∀ rs : List Rec,
      (chartSeries rs).dates =
          (rs.filter (fun r => (r.find "date").isSome)).map
            (fun r => (r.find "date").getD (JVal.str "")) ∧
        (chartSeries rs).ma50 =
          (rs.filter (fun r => (r.find "date").isSome)).map
            (fun r => r.find "day50MovingAverage") ∧
        (chartSeries rs).ma200 =
          (rs.filter (fun r => (r.find "date").isSome)).map
            (fun r => r.find "day200MovingAverage") ∧
        (chartSeries rs).ma50.length = (chartSeries rs).dates.length ∧
        (chartSeries rs).ma200.length = (chartSeries rs).dates.length) ∧
    chartSeries
        [[("date", JVal.str "2025-09-10"), ("day50MovingAverage", JVal.num 10),
            ("day200MovingAverage", JVal.num 20)],
          [("date", JVal.str "2025-09-11"), ("day200MovingAverage", JVal.num 21)],
          [("date", JVal.str "2025-09-12"), ("day50MovingAverage", JVal.num 12),
            ("day200MovingAverage", JVal.num 22)]] =
      ⟨[JVal.str "2025-09-10", JVal.str "2025-09-11", JVal.str "2025-09-12"],
        [some (JVal.num 10), none, some (JVal.num 12)],
        [some (JVal.num 20), some (JVal.num 21), some (JVal.num 22)]⟩ := by
  constructor
  · intro rs
    induction rs with
    | nil => exact ⟨rfl, rfl, rfl, rfl, rfl⟩
    | cons r rest ih =>
      obtain ⟨h1, h2, h3, h4, h5⟩ := ih
      cases hfind : r.find "date" with
      | none => simp [chartSeries, hfind, List.filter_cons, h1, h2, h3, h4, h5]
      | some dv => simp [chartSeries, hfind, List.filter_cons, h1, h2, h3, h4, h5]
  · rfl

/-- C3: when the secondary quote fetch raises, the stock-statistics
handler still succeeds on the primary record alone: the output equals
the build with no quote record, and the volume metric falls back to the
average-volume field only, with neither live-volume metric present. -/
theorem C3_quote_failure_absorbed (symbol : String) (d : Rec) (rest : List Rec)
    (err : String) (filter : String) (now : ℚ) (tz : ℤ) :
    getStockStats symbol (d :: rest) (Except.error err) filter now tz =
      Except.ok (metricsOut d none filter now tz) ∧
    (d.hasKey "avg30DayVolume" = true →
      (⟨"Avg 30-Day Volume", fmtVolume (d.getNum "avg30DayVolume"), none,
        none⟩ : Metric) ∈ metricsOut d none filter now tz) ∧
    "Volume (Today vs Avg)" ∉ labelList (metricsOut d none filter now tz) ∧
    "Volume (Today)" ∉ labelList (metricsOut d none filter now tz) := by
  refine ⟨?_, ?_, ?_, ?_⟩
  · simp [getStockStats, buildMetrics_eq_ok]
  · intro ha
    have hmem : (⟨"Avg 30-Day Volume", fmtVolume (d.getNum "avg30DayVolume"), none,
        none⟩ : Metric) ∈ volumePure none d := by
      simp [volumePure, avgVolFallback, optMetric, ha]
    exact mem_metricsOut.mpr (Or.inr (Or.inr (Or.inr (Or.inr (Or.inr (Or.inl hmem))))))
  · intro h
    rcases mem_labelList_metricsOut.mp h with h | h | h | h | h | h | h | h | h | h
    · exact absurd (mem_labelList_company.mp h).2 (by decide)
    · exact absurd (mem_labelList_exchange.mp h).2 (by decide)
    · rcases (mem_labelList_priceCap.mp h).2 with h1 | ⟨-, h1⟩ <;> exact absurd h1 (by decide)
    · rcases mem_labelList_range.mp h with ⟨-, -, -, -, -, -, h1⟩
      exact absurd h1 (by decide)
    · rcases mem_labelList_bidAsk.mp h with ⟨-, -, -, -, -, -, h1⟩
      exact absurd h1 (by decide)
    · exact absurd (mem_labelList_avgVolFallback h) (by decide)
    · rcases mem_labelList_perf h with h1 | h1 | h1 | h1 <;> exact absurd h1 (by decide)
    · rcases mem_labelList_fund h with h1 | h1 | h1 <;> exact absurd h1 (by decide)
    · rcases mem_labelList_tech h with h1 | h1 | h1 <;> exact absurd h1 (by decide)
    · exact absurd (mem_labelList_fresh h) (by decide)
  · intro h
    rcases mem_labelList_metricsOut.mp h with h | h | h | h | h | h | h | h | h | h
    · exact absurd (mem_labelList_company.mp h).2 (by decide)
    · exact absurd (mem_labelList_exchange.mp h).2 (by decide)
    · rcases (mem_labelList_priceCap.mp h).2 with h1 | ⟨-, h1⟩ <;> exact absurd h1 (by decide)
    · rcases mem_labelList_range.mp h with ⟨-, -, -, -, -, -, h1⟩
      exact absurd h1 (by decide)
    · rcases mem_labelList_bidAsk.mp h with ⟨-, -, -, -, -, -, h1⟩
      exact absurd h1 (by decide)
    · exact absurd (mem_labelList_avgVolFallback h) (by decide)
    · rcases mem_labelList_perf h with h1 | h1 | h1 | h1 <;> exact absurd h1 (by decide)
    · rcases mem_labelList_fund h with h1 | h1 | h1 <;> exact absurd h1 (by decide)
    · rcases mem_labelList_tech h with h1 | h1 | h1 <;> exact absurd h1 (by decide)
    · exact absurd (mem_labelList_fresh h) (by decide)

/-- Witness for C3 at a record carrying only an average volume, with a
failing quote fetch. -/
theorem C3_quote_failure_absorbed_witness :
    getStockStats "AAPL" [[("avg30DayVolume", JVal.num 500000)]]
        (Except.error "timeout") "all" 0 0 =
      Except.ok (metricsOut [("avg30DayVolume", JVal.num 500000)] none "all" 0 0) ∧
    (⟨"Avg 30-Day Volume",
      fmtVolume (Rec.getNum [("avg30DayVolume", JVal.num 500000)] "avg30DayVolume"),
      none, none⟩ : Metric) ∈ metricsOut [("avg30DayVolume", JVal.num 500000)] none "all" 0 0 := by
  have h := C3_quote_failure_absorbed "AAPL" [("avg30DayVolume", JVal.num 500000)] []
    "timeout" "all" 0 0
  exact ⟨h.1, h.2.1 (by decide)⟩

/-- C5: a Market Cap metric appears in the output exactly when a live
quote price and the primary record shares-outstanding field are both
present; its value is the live price times shares outstanding under the
market-cap scaling, whose currency-prefixed T tier starts at 10^12. -/
theorem C5_market_cap (d : Rec) (q : Option Rec) (filter : String) (now : ℚ) (tz : ℤ) :
    ("Market Cap" ∈ labelList (metricsOut d q filter now tz) ↔
      (∃ qr, q = some qr ∧ qr.hasKey "vnxPrice" = true) ∧
        d.hasKey "sharesOutstanding" = true) ∧
    (∀ qr, q = some qr → qr.hasKey "vnxPrice" = true →
      d.hasKey "sharesOutstanding" = true →
      (⟨"Market Cap",
        fmtMarketCap (qr.getNum "vnxPrice" * d.getNum "sharesOutstanding"),
        none, none⟩ : Metric) ∈ metricsOut d q filter now tz) ∧
    (∀ x : ℚ, 1000000000000 ≤ x →
      fmtMarketCap x = "$" ++ fmtFixed 2 (x / 1000000000000) ++ "T") := by
  refine ⟨⟨?_, ?_⟩, ?_, ?_⟩
  · intro h
    rcases mem_labelList_metricsOut.mp h with h | h | h | h | h | h | h | h | h | h
    · exact absurd (mem_labelList_company.mp h).2 (by decide)
    · exact absurd (mem_labelList_exchange.mp h).2 (by decide)
    · rcases mem_labelList_priceCap.mp h with ⟨hq, h1 | ⟨hs, -⟩⟩
      · exact absurd h1 (by decide)
      · exact ⟨hq, hs⟩
    · rcases mem_labelList_range.mp h with ⟨-, -, -, -, -, -, h1⟩
      exact absurd h1 (by decide)
    · rcases mem_labelList_bidAsk.mp h with ⟨-, -, -, -, -, -, h1⟩
      exact absurd h1 (by decide)
    · rcases mem_labelList_volumePure h with h1 | h1 | h1 <;> exact absurd h1 (by decide)
    · rcases mem_labelList_perf h with h1 | h1 | h1 | h1 <;> exact absurd h1 (by decide)
    · rcases mem_labelList_fund h with h1 | h1 | h1 <;> exact absurd h1 (by decide)
    · rcases mem_labelList_tech h with h1 | h1 | h1 <;> exact absurd h1 (by decide)
    · exact absurd (mem_labelList_fresh h) (by decide)
  · rintro ⟨⟨qr, hq, hp⟩, hs⟩
    exact mem_labelList_metricsOut.mpr (Or.inr (Or.inr (Or.inl
      (mem_labelList_priceCap.mpr ⟨⟨qr, hq, hp⟩, Or.inr ⟨hs, rfl⟩⟩))))
  · rintro qr rfl hp hs
    have hmem : (⟨"Market Cap",
        fmtMarketCap (qr.getNum "vnxPrice" * d.getNum "sharesOutstanding"),
        none, none⟩ : Metric) ∈ priceCapSection (some qr) d := by
      simp [priceCapSection, hp, optMetric, hs]
    exact mem_metricsOut.mpr (Or.inr (Or.inr (Or.inl hmem)))
  · intro x hx
    unfold fmtMarketCap
    rw [if_pos hx]

/-- Witness for C5 at a record with shares outstanding and a quote with
a live price. -/
theorem C5_market_cap_witness :
    (⟨"Market Cap",
      fmtMarketCap (Rec.getNum [("vnxPrice", JVal.num 10)] "vnxPrice" *
        Rec.getNum [("sharesOutstanding", JVal.num 2000000000)] "sharesOutstanding"),
      none, none⟩ : Metric) ∈
      metricsOut [("sharesOutstanding", JVal.num 2000000000)]
        (some [("vnxPrice", JVal.num 10)]) "all" 0 0 :=
  (C5_market_cap [("sharesOutstanding", JVal.num 2000000000)]
    (some [("vnxPrice", JVal.num 10)]) "all" 0 0).2.1
    [("vnxPrice", JVal.num 10)] rfl (by decide) (by decide)

/-- C6: the Day's Range metric is emitted exactly when both day bounds
are present and strictly positive, and the Bid / Ask metric exactly when
both bid and ask are present and strictly positive; a zero bound
suppresses the metric even when the other bound is positive. -/
theorem C6_range_bidask (d : Rec) (qr : Rec) (filter : String) (now : ℚ) (tz : ℤ) :
    ("Day's Range" ∈ labelList (metricsOut d (some qr) filter now tz) ↔
      qr.hasKey "vnxLowPrice" = true ∧ qr.hasKey "vnxHighPrice" = true ∧
        0 < qr.getNum "vnxLowPrice" ∧ 0 < qr.getNum "vnxHighPrice") ∧
    ("Bid / Ask" ∈ labelList (metricsOut d (some qr) filter now tz) ↔
      qr.hasKey "vnxBidPrice" = true ∧ qr.hasKey "vnxAskPrice" = true ∧
        0 < qr.getNum "vnxBidPrice" ∧ 0 < qr.getNum "vnxAskPrice") := by
  constructor
  · constructor
    · intro h
      rcases mem_labelList_metricsOut.mp h with h | h | h | h | h | h | h | h | h | h
      · exact absurd (mem_labelList_company.mp h).2 (by decide)
      · exact absurd (mem_labelList_exchange.mp h).2 (by decide)
      · rcases (mem_labelList_priceCap.mp h).2 with h1 | ⟨-, h1⟩ <;> exact absurd h1 (by decide)
      · rcases mem_labelList_range.mp h with ⟨qr2, heq, h1, h2, h3, h4, -⟩
        cases Option.some.inj heq
        exact ⟨h1, h2, h3, h4⟩
      · rcases mem_labelList_bidAsk.mp h with ⟨-, -, -, -, -, -, h1⟩
        exact absurd h1 (by decide)
      · rcases mem_labelList_volumePure h with h1 | h1 | h1 <;> exact absurd h1 (by decide)
      · rcases mem_labelList_perf h with h1 | h1 | h1 | h1 <;> exact absurd h1 (by decide)
      · rcases mem_labelList_fund h with h1 | h1 | h1 <;> exact absurd h1 (by decide)
      · rcases mem_labelList_tech h with h1 | h1 | h1 <;> exact absurd h1 (by decide)
      · exact absurd (mem_labelList_fresh h) (by decide)
    · rintro ⟨h1, h2, h3, h4⟩
      exact mem_labelList_metricsOut.mpr (Or.inr (Or.inr (Or.inr (Or.inl
        (mem_labelList_range.mpr ⟨qr, rfl, h1, h2, h3, h4, rfl⟩)))))
  · constructor
    · intro h
      rcases mem_labelList_metricsOut.mp h with h | h | h | h | h | h | h | h | h | h
      · exact absurd (mem_labelList_company.mp h).2 (by decide)
      · exact absurd (mem_labelList_exchange.mp h).2 (by decide)
      · rcases (mem_labelList_priceCap.mp h).2 with h1 | ⟨-, h1⟩ <;> exact absurd h1 (by decide)
      · rcases mem_labelList_range.mp h with ⟨-, -, -, -, -, -, h1⟩
        exact absurd h1 (by decide)
      · rcases mem_labelList_bidAsk.mp h with ⟨qr2, heq, h1, h2, h3, h4, -⟩
        cases Option.some.inj heq
        exact ⟨h1, h2, h3, h4⟩
      · rcases mem_labelList_volumePure h with h1 | h1 | h1 <;> exact absurd h1 (by decide)
      · rcases mem_labelList_perf h with h1 | h1 | h1 | h1 <;> exact absurd h1 (by decide)
      · rcases mem_labelList_fund h with h1 | h1 | h1 <;> exact absurd h1 (by decide)
      · rcases mem_labelList_tech h with h1 | h1 | h1 <;> exact absurd h1 (by decide)
      · exact absurd (mem_labelList_fresh h) (by decide)
    · rintro ⟨h1, h2, h3, h4⟩
      exact mem_labelList_metricsOut.mpr (Or.inr (Or.inr (Or.inr (Or.inr (Or.inl
        (mem_labelList_bidAsk.mpr ⟨qr, rfl, h1, h2, h3, h4, rfl⟩))))))

/-- C10: the metric build never fails for any inputs (the volume ratio
division sits behind a strict positivity guard), and with a live volume
present and an average volume of exactly zero the ratio branch is not
taken: a Volume (Today) metric with only the formatted live volume is
emitted and no comparison metric appears. -/
theorem C10_division_guard :
    (∀ (d : Rec) (q : Option Rec) (filter : String) (now : ℚ) (tz : ℤ),
      ∃ ms, buildMetrics d q filter now tz = Except.ok ms) ∧
    (∀ d qr : Rec, qr.hasKey "vnxVolume" = true → d.hasKey "avg30DayVolume" = true →
      d.getNum "avg30DayVolume" = 0 →
      volumeSection (some qr) d =
        Except.ok [⟨"Volume (Today)", fmtVolume (qr.getNum "vnxVolume"), none, none⟩] ∧
      ∀ (filter : String) (now : ℚ) (tz : ℤ),
        "Volume (Today vs Avg)" ∉ labelList (metricsOut d (some qr) filter now tz)) := by
  constructor
  · intro d q filter now tz
    exact ⟨metricsOut d q filter now tz, buildMetrics_eq_ok d q filter now tz⟩
  · intro d qr hv ha hz
    have hneg : ¬(d.getNum "avg30DayVolume" > 0) := by
      rw [hz]
      exact lt_irrefl 0
    have hvp : volumePure (some qr) d =
        [⟨"Volume (Today)", fmtVolume (qr.getNum "vnxVolume"), none, none⟩] := by
      simp only [volumePure]
      rw [if_pos ⟨hv, ha⟩, if_neg hneg]
    constructor
    · rw [volumeSection_eq_pure, hvp]
    · intro filter now tz h
      rcases mem_labelList_metricsOut.mp h with h | h | h | h | h | h | h | h | h | h
      · exact absurd (mem_labelList_company.mp h).2 (by decide)
      · exact absurd (mem_labelList_exchange.mp h).2 (by decide)
      · rcases (mem_labelList_priceCap.mp h).2 with h1 | ⟨-, h1⟩ <;> exact absurd h1 (by decide)
      · rcases mem_labelList_range.mp h with ⟨-, -, -, -, -, -, h1⟩
        exact absurd h1 (by decide)
      · rcases mem_labelList_bidAsk.mp h with ⟨-, -, -, -, -, -, h1⟩
        exact absurd h1 (by decide)
      · rw [hvp] at h
        simp [labelList] at h
      · rcases mem_labelList_perf h with h1 | h1 | h1 | h1 <;> exact absurd h1 (by decide)
      · rcases mem_labelList_fund h with h1 | h1 | h1 <;> exact absurd h1 (by decide)
      · rcases mem_labelList_tech h with h1 | h1 | h1 <;> exact absurd h1 (by decide)
      · exact absurd (mem_labelList_fresh h) (by decide)

/-- Witness for C10 at a quote with live volume 500000 and a record
whose 30-day average volume is zero. -/
theorem C10_division_guard_witness :
    volumeSection (some [("vnxVolume", JVal.num 500000)])
        [("avg30DayVolume", JVal.num 0)] =
      Except.ok [⟨"Volume (Today)",
        fmtVolume (Rec.getNum [("vnxVolume", JVal.num 500000)] "vnxVolume"),
        none, none⟩] :=
  (C10_division_guard.2 [("avg30DayVolume", JVal.num 0)]
    [("vnxVolume", JVal.num 500000)] (by decide) (by decide) (by decide)).1

end OpenBBWidgets
